import Mathlib

/-!
# Verification of the neonavigation motion-control core

Shallow embedding of `src/trajectory_tracker/src/trajectory_tracker.cpp` and
`src/costmap_cspace/src/costmap_3d.cpp`.  Double-precision floating point is
modelled by an arbitrary `LinearOrderedField` (the program's semantics is the
instance at `ℝ`; witnesses evaluate the same definitions at `ℚ`).  Helper code
that lives in headers outside `src/` (`path2d.h`, `basic_control.h`,
`eigen_line.h`) is either taken as an abstract parameter (`Geom`) or modelled
from the specification, as marked by doc comments.
-/

namespace NeoNav

variable {α : Type} [LinearOrderedField α]

/-- 2D vector subtraction (Eigen `a - b`). -/
def vsub (a b : α × α) : α × α := (a.1 - b.1, a.2 - b.2)

/-- Squared Euclidean norm (Eigen `squaredNorm()`). -/
def sqnormV (a : α × α) : α := a.1 * a.1 + a.2 * a.2

/-- `trajectory_tracker::Pose2D`: 2D position, yaw and optional linear
velocity.  The C++ NaN velocity sentinel (`std::isfinite` fails) is modelled
as `none`. -/
structure Pose2D (α : Type) where
  pos : α × α
  yaw : α
  velocity : Option α
deriving DecidableEq

/-- Default pose used to totalize list indexing (C++ indexing is undefined
out of bounds; every use in the embedding is in bounds on the source's
executions). -/
def dPose : Pose2D α := ⟨(0, 0), 0, none⟩

/-! ## Path ingestion: `TrackerNode::cbPath` (trajectory_tracker.cpp:243-286) -/

/-- One element of a received path has a negative explicit (finite)
velocity: `std::isfinite(velocity) && velocity < -0.0`. -/
def negVel (p : Pose2D α) : Prop := ∃ v, p.velocity = some v ∧ v < 0

instance (p : Pose2D α) : Decidable (negVel p) := by
  unfold negVel
  cases h : p.velocity with
  | none => exact .isFalse (by simp [h])
  | some v => exact decidable_of_iff (v < 0) (by simp [h])

@[simp] theorem negVel_none (pos : α × α) (yaw : α) :
    negVel (⟨pos, yaw, none⟩ : Pose2D α) ↔ False := by simp [negVel]

@[simp] theorem negVel_some (pos : α × α) (yaw v : α) :
    negVel (⟨pos, yaw, some v⟩ : Pose2D α) ↔ v < 0 := by simp [negVel]

/-- The loop body of `cbPath` for the waypoints after the first
(trajectory_tracker.cpp:257-283), without the velocity check.
State: stored path so far (`path_`), pending in-place-turn marker
(`in_place_turn_end` with `in_place_turning` as `Option`). -/
def stepPose (epsilon : α) (path : List (Pose2D α)) (pending : Option (Pose2D α))
    (next : Pose2D α) : List (Pose2D α) × Option (Pose2D α) :=
  let back := path.getLast?.getD dPose
  if epsilon * epsilon ≤ sqnormV (vsub back.pos next.pos) then
    match pending with
    | some ip => (path ++ [ip, next], none)
    | none => (path ++ [next], none)
  else
    (path, some ⟨back.pos, next.yaw, next.velocity⟩)

/-- The loop of `cbPath` over the waypoints after the first
(trajectory_tracker.cpp:257-283).  Returns (stored path, pending marker,
error-logged flag); a negative explicit velocity
(`std::isfinite(velocity) && velocity < -0.0`) clears the path and
returns immediately (lines 260-265). -/
def trackLoop (epsilon : α) (path : List (Pose2D α)) (pending : Option (Pose2D α)) :
    List (Pose2D α) → List (Pose2D α) × Option (Pose2D α) × Bool
  | [] => (path, pending, false)
  | next :: rest =>
    match next.velocity with
    | some v =>
      if v < 0 then ([], none, true)
      else
        let s := stepPose epsilon path pending next
        trackLoop epsilon s.1 s.2 rest
    | none =>
      let s := stepPose epsilon path pending next
      trackLoop epsilon s.1 s.2 rest

/-- Result of `cbPath`: the stored `path_`, the reset `path_step_done_`, and
whether the negative-velocity error was logged. -/
structure CbPathResult (α : Type) where
  path : List (Pose2D α)
  pathStepDone : ℕ
  errorLogged : Bool
deriving DecidableEq

/-- `TrackerNode::cbPath` (trajectory_tracker.cpp:243-286).  The first
waypoint is stored without a velocity check (line 256); the loop runs over
the remaining waypoints; a pending in-place-turn marker is flushed at the
end (lines 284-285). -/
def cbPath (epsilon : α) (poses : List (Pose2D α)) : CbPathResult α :=
  match poses with
  | [] => ⟨[], 0, false⟩
  | p :: rest =>
    let r := trackLoop epsilon [p] none rest
    if r.2.2 then ⟨[], 0, true⟩
    else ⟨r.1 ++ r.2.1.toList, 0, false⟩

example : (cbPath (1 : ℚ) [⟨(0,0),0,none⟩, ⟨(5,0),0,some (-1)⟩]).path = [] := by
  norm_num [cbPath, trackLoop, negVel]

example :
    (cbPath (1 : ℚ) [⟨(0,0),0,none⟩, ⟨(3,0),1,none⟩]).path
      = [⟨(0,0),0,none⟩, ⟨(3,0),1,none⟩] := by
  norm_num [cbPath, trackLoop, negVel, stepPose, sqnormV, vsub, dPose]

-- collapse of a run of near-duplicates into one in-place-turn marker
example :
    (cbPath (1 : ℚ) [⟨(0,0),0,none⟩, ⟨(0,(1:ℚ)/2),2,none⟩, ⟨((1:ℚ)/2,0),3,some 7⟩]).path
      = [⟨(0,0),0,none⟩, ⟨(0,0),3,some 7⟩] := by
  norm_num [cbPath, trackLoop, negVel, stepPose, sqnormV, vsub, dPose]

-- first waypoint's negative velocity is NOT checked (line 256)
example : (cbPath (1 : ℚ) [⟨(0,0),0,some (-1)⟩]).path = [⟨(0,0),0,some (-1)⟩] := by
  norm_num [cbPath, trackLoop]

/-! ## Control law: `TrackerNode::control` (trajectory_tracker.cpp:365-611)

The helper code used by `control` lives in headers that are not under
`src/` (`path2d.h`, `eigen_line.h`, `basic_control.h`).  `Geom` packages the
`Path2D` operations and line geometry as abstract parameters; `RealFuns`
packages the transcendental library functions (`cos`, `sin`, `sqrt`,
`atan2`, `M_PI`).  Fully specified helpers (`VelAccLimitter`,
`timeOptimalControl`, `clip`) are modelled from the spec below. -/

/-- Transcendental library functions (`std::cos`, `std::sin`, `std::sqrt`,
`std::atan2`, `M_PI`), abstract over the scalar type. -/
structure RealFuns (α : Type) where
  cos : α → α
  sin : α → α
  sqrt : α → α
  atan2 : α → α → α
  pi : α

/-- Modelled from the spec: the `Path2D` operations and line-geometry
helpers of `path2d.h` / `eigen_line.h`, which are not under `src/`.  Held
abstract; the spec's descriptions (§3 Path2D, §4.5) justify the
hypotheses placed on them where a theorem needs one.  `findLocalGoal`
and `findNearest` return an index into the path; "not found" / "end" is
the path length. -/
structure Geom (α : Type) where
  findLocalGoal : List (Pose2D α) → ℕ → Bool → ℕ
  findNearest : List (Pose2D α) → ℕ → ℕ → (α × α) → α → α → ℕ
  projection2d : (α × α) → (α × α) → (α × α) → (α × α)
  lineDistance : (α × α) → (α × α) → (α × α) → α
  remainedDistance : List (Pose2D α) → ℕ → ℕ → (α × α) → α
  getCurvature : List (Pose2D α) → ℕ → ℕ → (α × α) → α → α
  pathLength : List (Pose2D α) → α
  angleNormalized : α → α

/-- Sign function used by the spec's time-optimal control formula. -/
def sgn (x : α) : α := if x < 0 then -1 else if 0 < x then 1 else 0

/-- Modelled from the spec: `timeOptimalControl(remaining_signed, accel)`
returns `−sign(remaining) · √(2 · accel · |remaining|)` (spec §4.5;
`basic_control.h` is not under `src/`). -/
def timeOptimalControl (RF : RealFuns α) (e a : α) : α :=
  -(sgn e) * RF.sqrt (2 * a * |e|)

/-- Modelled from the spec: `clip(x, l)` clamps `x` to `[−l, l]`
(spec §4.5 `dist_err_clip = clip(dist_err, d_lim)`). -/
def clip (x l : α) : α := max (-l) (min l x)

/-- `std::copysign(1.0, x)`. -/
def copysign1 (x : α) : α := if x < 0 then -1 else 1

/-- Modelled from the spec: `VelAccLimitter::set(target, hard_limit,
accel, dt)` on stored value `v` — clamp `|target| ≤ hard_limit`, then
`v_new = v + clamp(target' − v, −accel·dt, +accel·dt)` (spec §3, §4.5
"Limiter semantics"; `basic_control.h` is not under `src/`). -/
def limitterSet (v target hard acc dt : α) : α :=
  let t := max (-hard) (min hard target)
  v + max (-(acc * dt)) (min (acc * dt) (t - v))

/-- Modelled from the spec: `VelAccLimitter::increment(delta, …) =
set(v + delta, …)` (spec §3). -/
def limitterIncrement (v delta hard acc dt : α) : α :=
  limitterSet v (v + delta) hard acc dt

/-- Status codes of `trajectory_tracker_msgs::TrajectoryTrackerStatus`. -/
inductive StatusCode where
  | NO_PATH
  | FAR_FROM_PATH
  | FOLLOWING
  | GOAL
deriving DecidableEq

/-- One published status message (stamp and path header omitted). -/
structure Status (α : Type) where
  distanceRemains : α
  angleRemains : α
  status : StatusCode
deriving DecidableEq

/-- Mutable tracker state that one control tick reads and writes:
the two limiters and `path_step_done_`. -/
structure CtrlState (α : Type) where
  vLim : α
  wLim : α
  pathStepDone : ℕ
deriving DecidableEq

/-- Everything one tick publishes, plus the post-tick state. -/
structure CtrlOutput (α : Type) where
  cmdVels : List (α × α)
  statuses : List (Status α)
  state : CtrlState α
deriving DecidableEq

/-- The angular-error / `sign_vel` computation
(trajectory_tracker.cpp:472-481): `angle = −atan2(vec.y, vec.x)`;
`angle_pose` is the nearest waypoint's yaw if `allow_backward_`
else `−angle`; if `cos(−angle)·cos(angle_pose) + sin(−angle)·sin(angle_pose)
< 0` then `sign_vel = −1` and `angle += π`. -/
def signVelAngle (RF : RealFuns α) (vec : α × α) (yawNearest : α)
    (allowBackward : Bool) : α × α :=
  let angle := -(RF.atan2 vec.2 vec.1)
  let anglePose := if allowBackward then yawNearest else -angle
  if RF.cos (-angle) * RF.cos anglePose + RF.sin (-angle) * RF.sin anglePose < 0 then
    (-1, angle + RF.pi)
  else
    (1, angle)

/-- Parameters of the tracker (`cbParameter`,
trajectory_tracker.cpp:187-216, and the startup parameter `hz`). -/
structure Params (α : Type) where
  lookForward : α
  curvForward : α
  kDist : α
  kAng : α
  kAvel : α
  gainAtVel : α
  dLim : α
  dStop : α
  rotateAng : α
  vel : α × α
  acc : α × α
  accToc : α × α
  goalToleranceDist : α
  goalToleranceAng : α
  stopToleranceDist : α
  stopToleranceAng : α
  noPosCntlDist : α
  minTrackPath : α
  epsilon : α
  hz : α
  pathStep : ℕ
  allowBackward : Bool
  limitVelByAvel : Bool

/-- Application of the 2D rigid transform `Translation(tx,ty) ∘ Rot(θ)`
to one path pose (trajectory_tracker.cpp:403-412): position is
transformed, `trans_yaw` is added to the yaw, the velocity is kept. -/
def transformPose (RF : RealFuns α) (t : α × α × α) (q : Pose2D α) : Pose2D α :=
  ⟨(t.1 + (RF.cos t.2.2 * q.pos.1 - RF.sin t.2.2 * q.pos.2),
    t.2.1 + (RF.sin t.2.2 * q.pos.1 + RF.cos t.2.2 * q.pos.2)),
   t.2.2 + q.yaw, q.velocity⟩

/-- Subsampling `for (i = 0; i < size; i += path_step)`
(trajectory_tracker.cpp:409); `path_step ≥ 1` per the configuration. -/
def subsampleIdx (s : ℕ) (l : List (Pose2D α)) : List (Pose2D α) :=
  ((List.range l.length).filter (fun i => i % s = 0)).map (fun i => l.getD i dPose)

/-- The transformed local path `lpath` (trajectory_tracker.cpp:409-412)
for transform `t = (tx, ty, trans_yaw)`. -/
def lpathOf (RF : RealFuns α) (p : Params α) (path : List (Pose2D α))
    (t : α × α × α) : List (Pose2D α) :=
  (subsampleIdx p.pathStep path).map (transformPose RF t)

/-- Lookahead origin (trajectory_tracker.cpp:422-424):
`ψ = w·look_forward/2`, `origin = (cos ψ, sin ψ)·v·look_forward`. -/
def originOf (RF : RealFuns α) (p : Params α) (st : CtrlState α) : α × α :=
  (RF.cos (st.wLim * p.lookForward / 2) * (st.vLim * p.lookForward),
   RF.sin (st.wLim * p.lookForward / 2) * (st.vLim * p.lookForward))

/-- `i_local_goal` (trajectory_tracker.cpp:429-430, 453). -/
def iLocalGoalOf (G : Geom α) (p : Params α) (lpath : List (Pose2D α))
    (st : CtrlState α) : ℕ :=
  G.findLocalGoal lpath st.pathStepDone p.allowBackward

/-- `max_search_range` (trajectory_tracker.cpp:432). -/
def maxSearchRangeOf (st : CtrlState α) : α :=
  if 0 < st.pathStepDone then 1 else 0

/-- `i_nearest` (trajectory_tracker.cpp:433-435, 451); `lpath.length`
encodes `lpath.end()`. -/
def iNearestOf (RF : RealFuns α) (G : Geom α) (p : Params α)
    (lpath : List (Pose2D α)) (st : CtrlState α) : ℕ :=
  G.findNearest lpath st.pathStepDone (iLocalGoalOf G p lpath st)
    (originOf RF p st) (maxSearchRangeOf st) p.epsilon

/-- `lpath[i_nearest]`. -/
def nearestPoseOf (RF : RealFuns α) (G : Geom α) (p : Params α)
    (lpath : List (Pose2D α)) (st : CtrlState α) : Pose2D α :=
  lpath.getD (iNearestOf RF G p lpath st) dPose

/-- `lpath[i_nearest_prev]` with `i_nearest_prev = max(0, i_nearest−1)`
(trajectory_tracker.cpp:452); `ℕ` subtraction is that `max`. -/
def prevPoseOf (RF : RealFuns α) (G : Geom α) (p : Params α)
    (lpath : List (Pose2D α)) (st : CtrlState α) : Pose2D α :=
  lpath.getD (iNearestOf RF G p lpath st - 1) dPose

/-- `pos_on_line` (trajectory_tracker.cpp:455-456). -/
def posOnLineOf (RF : RealFuns α) (G : Geom α) (p : Params α)
    (lpath : List (Pose2D α)) (st : CtrlState α) : α × α :=
  G.projection2d (prevPoseOf RF G p lpath st).pos (nearestPoseOf RF G p lpath st).pos
    (originOf RF p st)

/-- `linear_vel` (trajectory_tracker.cpp:458-459): the nearest waypoint's
velocity, falling back to `vel_[0]` on the NaN sentinel. -/
def linearVelOf (RF : RealFuns α) (G : Geom α) (p : Params α)
    (lpath : List (Pose2D α)) (st : CtrlState α) : α :=
  (nearestPoseOf RF G p lpath st).velocity.getD p.vel.1

/-- `path_length` (trajectory_tracker.cpp:426). -/
def pathLengthOf (G : Geom α) (lpath : List (Pose2D α)) : α :=
  G.pathLength lpath

/-- `remain_local` (trajectory_tracker.cpp:462, 465-466). -/
def remainLocalOf (RF : RealFuns α) (G : Geom α) (p : Params α)
    (lpath : List (Pose2D α)) (st : CtrlState α) : α :=
  if pathLengthOf G lpath < p.noPosCntlDist then 0
  else G.remainedDistance lpath (iNearestOf RF G p lpath st)
    (iLocalGoalOf G p lpath st) (posOnLineOf RF G p lpath st)

/-- `remain` (trajectory_tracker.cpp:464-466). -/
def remainOf (RF : RealFuns α) (G : Geom α) (p : Params α)
    (lpath : List (Pose2D α)) (st : CtrlState α) : α :=
  if pathLengthOf G lpath < p.noPosCntlDist then 0
  else G.remainedDistance lpath (iNearestOf RF G p lpath st)
    lpath.length (posOnLineOf RF G p lpath st)

/-- `dist_err` (trajectory_tracker.cpp:469-470). -/
def distErrOf (RF : RealFuns α) (G : Geom α) (p : Params α)
    (lpath : List (Pose2D α)) (st : CtrlState α) : α :=
  G.lineDistance (prevPoseOf RF G p lpath st).pos (nearestPoseOf RF G p lpath st).pos
    (originOf RF p st)

/-- `vec = lpath[i_nearest].pos − lpath[i_nearest_prev].pos`
(trajectory_tracker.cpp:473). -/
def vecOf (RF : RealFuns α) (G : Geom α) (p : Params α)
    (lpath : List (Pose2D α)) (st : CtrlState α) : α × α :=
  vsub (nearestPoseOf RF G p lpath st).pos (prevPoseOf RF G p lpath st).pos

/-- `sign_vel` (trajectory_tracker.cpp:476-480). -/
def signVelOf (RF : RealFuns α) (G : Geom α) (p : Params α)
    (lpath : List (Pose2D α)) (st : CtrlState α) : α :=
  (signVelAngle RF (vecOf RF G p lpath st) (nearestPoseOf RF G p lpath st).yaw
    p.allowBackward).1

/-- The normalized angular error `angle` (trajectory_tracker.cpp:474-482). -/
def angleOf (RF : RealFuns α) (G : Geom α) (p : Params α)
    (lpath : List (Pose2D α)) (st : CtrlState α) : α :=
  G.angleNormalized
    (signVelAngle RF (vecOf RF G p lpath st) (nearestPoseOf RF G p lpath st).yaw
      p.allowBackward).2

/-- `curv` (trajectory_tracker.cpp:485). -/
def curvOf (RF : RealFuns α) (G : Geom α) (p : Params α)
    (lpath : List (Pose2D α)) (st : CtrlState α) : α :=
  G.getCurvature lpath (iNearestOf RF G p lpath st) (iLocalGoalOf G p lpath st)
    (posOnLineOf RF G p lpath st) p.curvForward

/-- `dist_from_path` (trajectory_tracker.cpp:535-539).  Note the source
compares `i_nearest + 1` (an index into the subsampled `lpath`) against
`path_.size()` (the stored path), hence the `storedLen` argument. -/
def distFromPathOf (RF : RealFuns α) (G : Geom α) (p : Params α) (storedLen : ℕ)
    (lpath : List (Pose2D α)) (st : CtrlState α) : α :=
  if iNearestOf RF G p lpath st = 0 then
    -(RF.sqrt (sqnormV (vsub (nearestPoseOf RF G p lpath st).pos (originOf RF p st))))
  else if storedLen ≤ iNearestOf RF G p lpath st + 1 then
    -(RF.sqrt (sqnormV (vsub (nearestPoseOf RF G p lpath st).pos (originOf RF p st))))
  else
    distErrOf RF G p lpath st

/-- Terminal part of a tick that falls through to the publish code
(trajectory_tracker.cpp:580-610): clear both limiters when both stop
tolerances hold on the published status fields, publish the twist, choose
`GOAL` vs `FOLLOWING`, and store the new `path_step_done_`. -/
def finishTick (p : Params α) (iLocalGoal lpathLen : ℕ)
    (statusDist statusAng v w : α) (newDone : ℕ) : CtrlOutput α :=
  ⟨[((if |statusDist| < p.stopToleranceDist ∧ |statusAng| < p.stopToleranceAng then 0 else v),
     (if |statusDist| < p.stopToleranceDist ∧ |statusAng| < p.stopToleranceAng then 0 else w))],
   [⟨statusDist, statusAng,
     if |statusDist| < p.goalToleranceDist ∧ |statusAng| < p.goalToleranceAng ∧
        iLocalGoal = lpathLen then StatusCode.GOAL else StatusCode.FOLLOWING⟩],
   ⟨(if |statusDist| < p.stopToleranceDist ∧ |statusAng| < p.stopToleranceAng then 0 else v),
    (if |statusDist| < p.stopToleranceDist ∧ |statusAng| < p.stopToleranceAng then 0 else w),
    newDone⟩⟩

/-- The stop-and-rotate branch (trajectory_tracker.cpp:503-531).  The
inner condition (lines 509-511) overrides the angle with the local goal's
yaw and may set `arrive_local_goal`; `1.5` is written `3/2`. -/
def rotateTick (RF : RealFuns α) (G : Geom α) (p : Params α)
    (lpath : List (Pose2D α)) (st : CtrlState α) (dt : α) : CtrlOutput α :=
  if pathLengthOf G lpath < p.minTrackPath ∨
     |remainLocalOf RF G p lpath st| < p.stopToleranceDist ∨
     ((vecOf RF G p lpath st).2 = 0 ∧ (vecOf RF G p lpath st).1 = 0) then
    finishTick p (iLocalGoalOf G p lpath st) lpath.length
      (if pathLengthOf G lpath < p.stopToleranceDist ∨
          ((vecOf RF G p lpath st).2 = 0 ∧ (vecOf RF G p lpath st).1 = 0) then 0
       else remainOf RF G p lpath st)
      (G.angleNormalized (-(lpath.getD (iLocalGoalOf G p lpath st - 1) dPose).yaw))
      (limitterSet st.vLim 0 (linearVelOf RF G p lpath st) p.acc.1 dt)
      (limitterSet st.wLim
        (timeOptimalControl RF
          (G.angleNormalized (-(lpath.getD (iLocalGoalOf G p lpath st - 1) dPose).yaw) +
            st.wLim * dt * (3 / 2))
          p.accToc.2)
        p.vel.2 p.acc.2 dt)
      (if iLocalGoalOf G p lpath st ≠ lpath.length then iLocalGoalOf G p lpath st
       else max st.pathStepDone (iNearestOf RF G p lpath st - 1))
  else
    finishTick p (iLocalGoalOf G p lpath st) lpath.length
      (if pathLengthOf G lpath < p.stopToleranceDist ∨
          ((vecOf RF G p lpath st).2 = 0 ∧ (vecOf RF G p lpath st).1 = 0) then 0
       else remainOf RF G p lpath st)
      (angleOf RF G p lpath st)
      (limitterSet st.vLim 0 (linearVelOf RF G p lpath st) p.acc.1 dt)
      (limitterSet st.wLim
        (timeOptimalControl RF (angleOf RF G p lpath st + st.wLim * dt * (3 / 2))
          p.accToc.2)
        p.vel.2 p.acc.2 dt)
      (max st.pathStepDone (iNearestOf RF G p lpath st - 1))

/-- First limiter set of the path-following branch
(trajectory_tracker.cpp:555-557). -/
def vLim1Of (RF : RealFuns α) (G : Geom α) (p : Params α)
    (lpath : List (Pose2D α)) (st : CtrlState α) (dt : α) : α :=
  limitterSet st.vLim
    (timeOptimalControl RF (-(remainLocalOf RF G p lpath st) * signVelOf RF G p lpath st)
      p.accToc.1)
    (linearVelOf RF G p lpath st) p.acc.1 dt

/-- `wref` before angular-velocity limiting (trajectory_tracker.cpp:559). -/
def wrefOf (RF : RealFuns α) (G : Geom α) (p : Params α)
    (lpath : List (Pose2D α)) (st : CtrlState α) (dt : α) : α :=
  |vLim1Of RF G p lpath st dt| * curvOf RF G p lpath st

/-- `v_lim` after the optional angular-velocity-limit re-set
(trajectory_tracker.cpp:561-567). -/
def vLim2Of (RF : RealFuns α) (G : Geom α) (p : Params α)
    (lpath : List (Pose2D α)) (st : CtrlState α) (dt : α) : α :=
  if p.limitVelByAvel = true ∧ p.vel.2 < |wrefOf RF G p lpath st dt| then
    limitterSet (vLim1Of RF G p lpath st dt)
      (copysign1 (vLim1Of RF G p lpath st dt) * |p.vel.2 / curvOf RF G p lpath st|)
      (linearVelOf RF G p lpath st) p.acc.1 dt
  else vLim1Of RF G p lpath st dt

/-- `wref` after the optional saturation (trajectory_tracker.cpp:566). -/
def wref2Of (RF : RealFuns α) (G : Geom α) (p : Params α)
    (lpath : List (Pose2D α)) (st : CtrlState α) (dt : α) : α :=
  if p.limitVelByAvel = true ∧ p.vel.2 < |wrefOf RF G p lpath st dt| then
    copysign1 (wrefOf RF G p lpath st dt) * p.vel.2
  else wrefOf RF G p lpath st dt

/-- `k_ang` (trajectory_tracker.cpp:569). -/
def kAngOf (RF : RealFuns α) (G : Geom α) (p : Params α)
    (lpath : List (Pose2D α)) (st : CtrlState α) : α :=
  if p.gainAtVel = 0 then p.kAng
  else p.kAng * linearVelOf RF G p lpath st / p.gainAtVel

/-- `w_lim` after the increment of the path-following branch
(trajectory_tracker.cpp:570-572). -/
def wLimFollowOf (RF : RealFuns α) (G : Geom α) (p : Params α)
    (lpath : List (Pose2D α)) (st : CtrlState α) (dt : α) : α :=
  limitterIncrement st.wLim
    (dt * (-(clip (distErrOf RF G p lpath st) p.dLim) * p.kDist -
           angleOf RF G p lpath st * kAngOf RF G p lpath st -
           (st.wLim - wref2Of RF G p lpath st dt) * p.kAvel))
    p.vel.2 p.acc.2 dt

/-- The path-following branch (trajectory_tracker.cpp:533-578): the
far-from-path early return, else the two limiter updates and fall-through. -/
def followTick (RF : RealFuns α) (G : Geom α) (p : Params α) (storedLen : ℕ)
    (lpath : List (Pose2D α)) (st : CtrlState α) (dt : α) : CtrlOutput α :=
  if p.dStop < |distFromPathOf RF G p storedLen lpath st| then
    ⟨[(0, 0)],
     [⟨remainOf RF G p lpath st, angleOf RF G p lpath st, StatusCode.FAR_FROM_PATH⟩],
     st⟩
  else
    finishTick p (iLocalGoalOf G p lpath st) lpath.length
      (remainOf RF G p lpath st) (angleOf RF G p lpath st)
      (vLim2Of RF G p lpath st dt) (wLimFollowOf RF G p lpath st dt)
      (max st.pathStepDone (iNearestOf RF G p lpath st - 1))

/-- The part of `control` after the transform succeeded
(trajectory_tracker.cpp:422-611): nearest-not-found early return, the
mode choice of line 499-502, then the corresponding branch. -/
def controlCore (RF : RealFuns α) (G : Geom α) (p : Params α) (storedLen : ℕ)
    (lpath : List (Pose2D α)) (st : CtrlState α) (dt : α) : CtrlOutput α :=
  if iNearestOf RF G p lpath st = lpath.length then
    ⟨[(0, 0)], [⟨0, 0, StatusCode.NO_PATH⟩], ⟨0, 0, st.pathStepDone⟩⟩
  else if (|p.rotateAng| < RF.pi ∧ RF.cos (angleOf RF G p lpath st) < RF.cos p.rotateAng) ∨
          |remainLocalOf RF G p lpath st| < p.stopToleranceDist ∨
          pathLengthOf G lpath < p.minTrackPath ∨
          ((vecOf RF G p lpath st).2 = 0 ∧ (vecOf RF G p lpath st).1 = 0) then
    rotateTick RF G p lpath st dt
  else
    followTick RF G p storedLen lpath st dt

/-- `TrackerNode::control` (trajectory_tracker.cpp:365-611).  `frameId` is
`path_header_.frame_id`; `tr` is the composed `robot ← path` transform
`(tx, ty, trans_yaw)`, `none` when the lookup inside `control` throws
(lines 389-420). -/
def control (RF : RealFuns α) (G : Geom α) (p : Params α)
    (path : List (Pose2D α)) (frameId : String) (tr : Option (α × α × α))
    (st : CtrlState α) (dt : α) : CtrlOutput α :=
  if frameId = "" ∨ path = [] then
    ⟨[(0, 0)], [⟨0, 0, StatusCode.NO_PATH⟩], ⟨0, 0, st.pathStepDone⟩⟩
  else
    match tr with
    | none => ⟨[], [⟨0, 0, StatusCode.NO_PATH⟩], st⟩
    | some t => controlCore RF G p path.length (lpathOf RF p path t) st dt

/-- `TrackerNode::cbTimer` (trajectory_tracker.cpp:332-353): when the
`robot ← odom` lookup throws (`robotOdom = none`), publish one `NO_PATH`
status and return; otherwise run `control` with `dt = 1/hz`. -/
def cbTimer (RF : RealFuns α) (G : Geom α) (p : Params α)
    (path : List (Pose2D α)) (frameId : String) (robotOdom : Option Unit)
    (tr : Option (α × α × α)) (st : CtrlState α) : CtrlOutput α :=
  match robotOdom with
  | none => ⟨[], [⟨0, 0, StatusCode.NO_PATH⟩], st⟩
  | some _ => control RF G p path frameId tr st (1 / p.hz)

/-! ## Costmap node: `Costmap3DOFNode` (costmap_3d.cpp) -/

/-- `nav_msgs::OccupancyGrid`, reduced to the fields the two callbacks
inspect. -/
structure OccupancyGrid where
  frameId : String
  width : ℕ
  height : ℕ
deriving DecidableEq

/-- Observable effects of one `cbMap` call. -/
structure CbMapResult where
  errorLogged : Bool
  exceptionThrown : Bool
  baseMapStamped : Bool
  snapshotPublished : Bool
deriving DecidableEq

/-- `Costmap3DOFNode::cbMap` (costmap_3d.cpp:59-76).  When
`getAngularGrid() <= 0` the source logs an error and then evaluates the
bare expression statement `std::runtime_error("ang_resolution is not
set.");` — this constructs a temporary exception object and immediately
discards it; nothing is thrown.  Execution falls through to
`setBaseMap(*msg)` and the `costmap` publish unconditionally. -/
def cbMap (angularGrid : ℤ) (_msg : OccupancyGrid) : CbMapResult :=
  { errorLogged := angularGrid ≤ 0
    exceptionThrown := false
    baseMapStamped := true
    snapshotPublished := true }

/-- Observable effects of one `cbMapOverlay` call: the error log, whether
`processMapOverlay` ran, and the C-space volume after the call
(`processMapOverlay` and `setBaseMap` are the only mutators, spec §5). -/
structure OverlayResult (V : Type) where
  errorLogged : Bool
  overlayProcessed : Bool
  volume : V
deriving DecidableEq

/-- `Costmap3DOFNode::cbMapOverlay` (costmap_3d.cpp:77-95).  `baseFrame`,
`baseW`, `baseH` are `map->getMap()`'s header frame and grid size;
`process` is the (header-defined) `processMapOverlay` acting on the
C-space volume `vol`. -/
def cbMapOverlay {V : Type} (process : V → OccupancyGrid → V)
    (baseFrame : String) (baseW baseH : ℕ) (vol : V) (msg : OccupancyGrid) :
    OverlayResult V :=
  if baseFrame ≠ msg.frameId then ⟨true, false, vol⟩
  else if baseW < 1 ∨ baseH < 1 then ⟨false, false, vol⟩
  else ⟨false, true, process vol msg⟩

/-! ## Spec-modelled geometry instance

Concrete stand-ins for the `Path2D` / line-geometry operations of
`path2d.h` and `eigen_line.h`, which are not under `src/`.  They are used
only to instantiate `Geom` at concrete inputs; every general theorem
keeps `Geom` abstract. -/

/-- 2D vector addition. -/
def vadd (a b : α × α) : α × α := (a.1 + b.1, a.2 + b.2)

/-- Scalar multiple of a 2D vector. -/
def smulV (c : α) (a : α × α) : α × α := (c * a.1, c * a.2)

/-- 2D dot product. -/
def dotV (a b : α × α) : α := a.1 * b.1 + a.2 * b.2

/-- 2D cross product (z-component). -/
def crossV (a b : α × α) : α := a.1 * b.2 - a.2 * b.1

/-- Modelled from the spec: orthogonal projection of `pt` onto the line
through `a`, `b` (spec §4.5 step 3; `eigen_line.h` is not under `src/`). -/
def specProjection2d (a b pt : α × α) : α × α :=
  vadd a (smulV (dotV (vsub pt a) (vsub b a) / sqnormV (vsub b a)) (vsub b a))

/-- Modelled from the spec: signed distance of `pt` from the line through
`a`, `b` (spec §4.5 step 3; `eigen_line.h` is not under `src/`). -/
def specLineDistance (RF : RealFuns α) (a b pt : α × α) : α :=
  crossV (vsub b a) (vsub pt a) / RF.sqrt (sqnormV (vsub b a))

/-- Sum of the segment lengths of a path (spec §3 `Path2D.length`). -/
def segLengths (RF : RealFuns α) : List (Pose2D α) → α
  | [] => 0
  | [_] => 0
  | a :: b :: r => RF.sqrt (sqnormV (vsub b.pos a.pos)) + segLengths RF (b :: r)

/-- Length of `n` segments of the path starting at index `i`. -/
def segSum (RF : RealFuns α) (l : List (Pose2D α)) (i : ℕ) : ℕ → α
  | 0 => 0
  | n + 1 =>
    RF.sqrt (sqnormV (vsub (l.getD (i + 1) dPose).pos (l.getD i dPose).pos)) +
      segSum RF l (i + 1) n

/-- Modelled from the spec: `remainedDistance(begin, nearest, target,
projected_point)` — arc-length from the projection to `target`
(spec §3; `path2d.h` is not under `src/`). -/
def specRemainedDistance (RF : RealFuns α) (l : List (Pose2D α))
    (nearest target : ℕ) (pol : α × α) : α :=
  RF.sqrt (sqnormV (vsub (l.getD nearest dPose).pos pol)) +
    segSum RF l nearest (target - 1 - nearest)

/-- Clamp to `[0, 1]`, used to measure point-to-segment distance. -/
def clamp01 (t : α) : α := max 0 (min 1 t)

/-- Squared distance from `pt` to the segment `[a, b]`. -/
def segDistSq (a b pt : α × α) : α :=
  sqnormV (vsub pt
    (vadd a (smulV (clamp01 (dotV (vsub pt a) (vsub b a) / sqnormV (vsub b a)))
      (vsub b a))))

/-- Modelled from the spec: `findNearest(begin, end, point, …)` — the
index in `[begin, end)` whose incoming segment is nearest to `point`
(spec §3 "nearest projection onto the polyline, searching forward from
begin"; the spec does not describe the roles of `max_search_range` and
`epsilon`, so they are ignored); `l.length` ("end") when the range is
empty. -/
def specFindNearest (l : List (Pose2D α)) (b e : ℕ) (pt : α × α)
    (_msr _eps : α) : ℕ :=
  if e ≤ b then l.length
  else
    ((List.range (e - b)).map (· + b)).foldl
      (fun best i =>
        if segDistSq (l.getD (i - 1) dPose).pos (l.getD i dPose).pos pt <
            segDistSq (l.getD (best - 1) dPose).pos (l.getD best dPose).pos pt
        then i else best)
      b

/-- The path direction reverses at index `i` (the dot product of the
segments into and out of `i` is negative). -/
def dirReversed (l : List (Pose2D α)) (i : ℕ) : Prop :=
  dotV (vsub (l.getD i dPose).pos (l.getD (i - 1) dPose).pos)
    (vsub (l.getD (i + 1) dPose).pos (l.getD i dPose).pos) < 0

instance (l : List (Pose2D α)) (i : ℕ) : Decidable (dirReversed l i) := by
  unfold dirReversed; infer_instance

/-- Fuel-bounded scan for `specFindLocalGoal`. -/
def sfgGo (l : List (Pose2D α)) : ℕ → ℕ → ℕ
  | 0, _ => l.length
  | fuel + 1, i =>
    if l.length ≤ i + 1 then l.length
    else if dirReversed l (i + 1) then i + 1
    else sfgGo l fuel (i + 1)

/-- Modelled from the spec: `findLocalGoal(begin, end, allow_backward)` —
"scans forward until the path direction reverses (or end) and returns
that index" (spec §3; `path2d.h` is not under `src/`; the spec does not
describe `allow_backward`'s effect on the scan, so it is ignored). -/
def specFindLocalGoal (l : List (Pose2D α)) (b : ℕ) (_ab : Bool) : ℕ :=
  sfgGo l l.length b

/-- Modelled from the spec: normalize an angle to `(−π, π]`
(spec §4.5 step 3). -/
def specAngleNormalized (RF : RealFuns α) [FloorRing α] (a : α) : α :=
  a - 2 * RF.pi * (⌈a / (2 * RF.pi) - 1 / 2⌉ : ℤ)

/-- Modelled from the spec: `getCurvature(nearest, local_goal,
projected_point, forward_dist)` — "average path curvature over the
window" (spec §3).  The spec does not determine the formula; no theorem
in this file depends on its value (it stays abstract in `Geom`), so the
stand-in returns 0 and is only ever passed, never evaluated, by the
concrete instantiations below. -/
def specGetCurvature (_l : List (Pose2D α)) (_nearest _localGoal : ℕ)
    (_pol : α × α) (_forward : α) : α := 0

/-- The spec-modelled geometry bundle over any scalar type carrying the
library functions. -/
def specGeom (RF : RealFuns α) [FloorRing α] : Geom α :=
  { findLocalGoal := specFindLocalGoal
    findNearest := specFindNearest
    projection2d := specProjection2d
    lineDistance := specLineDistance RF
    remainedDistance := specRemainedDistance RF
    getCurvature := specGetCurvature
    pathLength := segLengths RF
    angleNormalized := specAngleNormalized RF }

/-- `std::atan2` on `ℝ`. -/
noncomputable def realAtan2 (y x : ℝ) : ℝ :=
  if 0 < x then Real.arctan (y / x)
  else if x < 0 then
    (if 0 ≤ y then Real.arctan (y / x) + Real.pi else Real.arctan (y / x) - Real.pi)
  else
    (if 0 < y then Real.pi / 2 else if y < 0 then -(Real.pi / 2) else 0)

/-- The actual library functions on `ℝ`: the program's semantics is the
embedding instantiated at `realRF`. -/
noncomputable def realRF : RealFuns ℝ :=
  ⟨Real.cos, Real.sin, Real.sqrt, realAtan2, Real.pi⟩

/-- The spec-modelled geometry at `ℝ`. -/
noncomputable def realGeom : Geom ℝ := specGeom realRF

/-! ## Rational instantiations used by witnesses

General theorems quantify over `RealFuns`/`Geom`; the witnesses
instantiate them at `ℚ` with simple concrete functions so that the
hypotheses can be checked numerically. -/

/-- A `ℚ`-valued stand-in for the transcendental functions, used only to
instantiate universally quantified theorems in witnesses. -/
def qRF : RealFuns ℚ := ⟨fun _ => 1, fun _ => 0, id, fun _ _ => 0, 3⟩

/-- A simple in-range geometry instantiation for witnesses. -/
def qGeom0 : Geom ℚ :=
  { findLocalGoal := fun l _ _ => l.length
    findNearest := fun l b _ _ _ _ => min b l.length
    projection2d := fun _ _ o => o
    lineDistance := fun _ _ _ => 0
    remainedDistance := fun _ _ _ _ => 0
    getCurvature := fun _ _ _ _ _ => 0
    pathLength := fun l => (l.length : ℚ)
    angleNormalized := id }

/-- A rational parameter block with benign values, for witnesses. -/
def qParams : Params ℚ :=
  { lookForward := 0, curvForward := 1, kDist := 1, kAng := 1, kAvel := 1
    gainAtVel := 0, dLim := 1, dStop := 1, rotateAng := 5
    vel := (4, 2), acc := (1/10, 1/10), accToc := (1/10, 1/10)
    goalToleranceDist := 1/10, goalToleranceAng := 1/10
    stopToleranceDist := 1/10, stopToleranceAng := 1/10
    noPosCntlDist := 0, minTrackPath := 1, epsilon := 1/100, hz := 50
    pathStep := 1, allowBackward := false, limitVelByAvel := false }

/-- Parameters used by the `ℝ`-valued counterexamples. -/
noncomputable def cexParams : Params ℝ :=
  { lookForward := 0, curvForward := 1, kDist := 1, kAng := 1, kAvel := 1
    gainAtVel := 0, dLim := 1, dStop := 1, rotateAng := 5
    vel := (4, 2), acc := (1/10, 1/10), accToc := (1/10, 1/10)
    goalToleranceDist := 1/10, goalToleranceAng := 1/10
    stopToleranceDist := 1/10, stopToleranceAng := 1/10
    noPosCntlDist := 0, minTrackPath := 1, epsilon := 1/100, hz := 50
    pathStep := 1, allowBackward := false, limitVelByAvel := false }

/-! ## Limiter lemmas -/

/-- One limiter `set` changes the stored value by at most `accel · dt`. -/
theorem abs_limitterSet_sub_le (v t h a dt : α) (had : 0 ≤ a * dt) :
    |limitterSet v t h a dt - v| ≤ a * dt := by
  unfold limitterSet
  rw [add_sub_cancel_left, abs_le]
  refine ⟨le_max_left _ _, max_le (by linarith) (min_le_left _ _)⟩

theorem abs_limitterIncrement_sub_le (v d h a dt : α) (had : 0 ≤ a * dt) :
    |limitterIncrement v d h a dt - v| ≤ a * dt :=
  abs_limitterSet_sub_le v (v + d) h a dt had

/-- `finishTick` either clears both limiters or passes `v`, `w` through. -/
theorem finishTick_state (p : Params α) (ilg len : ℕ) (sd sa v w : α) (nd : ℕ) :
    ((finishTick p ilg len sd sa v w nd).state.vLim = 0 ∧
      (finishTick p ilg len sd sa v w nd).state.wLim = 0) ∨
    ((finishTick p ilg len sd sa v w nd).state.vLim = v ∧
      (finishTick p ilg len sd sa v w nd).state.wLim = w) := by
  by_cases hc : |sd| < p.stopToleranceDist ∧ |sa| < p.stopToleranceAng
  · left; simp [finishTick, hc]
  · right; simp [finishTick, hc]

theorem vLim2Of_bound (RF : RealFuns α) (G : Geom α) (p : Params α)
    (lpath : List (Pose2D α)) (st : CtrlState α) (dt : α) (h1 : 0 ≤ p.acc.1 * dt) :
    |vLim2Of RF G p lpath st dt - st.vLim| ≤ 2 * (p.acc.1 * dt) := by
  unfold vLim2Of
  split
  · calc |limitterSet (vLim1Of RF G p lpath st dt) _ _ p.acc.1 dt - st.vLim|
        ≤ |limitterSet (vLim1Of RF G p lpath st dt) _ _ p.acc.1 dt -
            vLim1Of RF G p lpath st dt| + |vLim1Of RF G p lpath st dt - st.vLim| :=
          abs_sub_le _ _ _
      _ ≤ p.acc.1 * dt + p.acc.1 * dt := by
          exact add_le_add (abs_limitterSet_sub_le _ _ _ _ _ h1)
            (abs_limitterSet_sub_le _ _ _ _ _ h1)
      _ = 2 * (p.acc.1 * dt) := by ring
  · exact le_trans (abs_limitterSet_sub_le _ _ _ _ _ h1) (by linarith)

theorem rotateTick_bound (RF : RealFuns α) (G : Geom α) (p : Params α)
    (lpath : List (Pose2D α)) (st : CtrlState α) (dt : α)
    (h1 : 0 ≤ p.acc.1 * dt) (h2 : 0 ≤ p.acc.2 * dt) :
    ((rotateTick RF G p lpath st dt).state.vLim = 0 ∨
      |(rotateTick RF G p lpath st dt).state.vLim - st.vLim| ≤ 2 * (p.acc.1 * dt)) ∧
    ((rotateTick RF G p lpath st dt).state.wLim = 0 ∨
      |(rotateTick RF G p lpath st dt).state.wLim - st.wLim| ≤ p.acc.2 * dt) := by
  unfold rotateTick
  split <;>
  · rcases finishTick_state p _ _ _ _ _ _ _ with ⟨hv, hw⟩ | ⟨hv, hw⟩
    · exact ⟨Or.inl hv, Or.inl hw⟩
    · rw [hv, hw]
      exact ⟨Or.inr (le_trans (abs_limitterSet_sub_le _ _ _ _ _ h1) (by linarith)),
        Or.inr (abs_limitterSet_sub_le _ _ _ _ _ h2)⟩

theorem followTick_bound (RF : RealFuns α) (G : Geom α) (p : Params α)
    (storedLen : ℕ) (lpath : List (Pose2D α)) (st : CtrlState α) (dt : α)
    (h1 : 0 ≤ p.acc.1 * dt) (h2 : 0 ≤ p.acc.2 * dt) :
    ((followTick RF G p storedLen lpath st dt).state.vLim = 0 ∨
      |(followTick RF G p storedLen lpath st dt).state.vLim - st.vLim| ≤
        2 * (p.acc.1 * dt)) ∧
    ((followTick RF G p storedLen lpath st dt).state.wLim = 0 ∨
      |(followTick RF G p storedLen lpath st dt).state.wLim - st.wLim| ≤
        p.acc.2 * dt) := by
  unfold followTick
  split
  · constructor
    · exact Or.inr (by simp; linarith)
    · exact Or.inr (by simp [h2])
  · rcases finishTick_state p _ _ _ _ _ _ _ with ⟨hv, hw⟩ | ⟨hv, hw⟩
    · exact ⟨Or.inl hv, Or.inl hw⟩
    · rw [hv, hw]
      exact ⟨Or.inr (vLim2Of_bound RF G p lpath st dt h1),
        Or.inr (abs_limitterIncrement_sub_le _ _ _ _ _ h2)⟩

theorem controlCore_bound (RF : RealFuns α) (G : Geom α) (p : Params α)
    (storedLen : ℕ) (lpath : List (Pose2D α)) (st : CtrlState α) (dt : α)
    (h1 : 0 ≤ p.acc.1 * dt) (h2 : 0 ≤ p.acc.2 * dt) :
    ((controlCore RF G p storedLen lpath st dt).state.vLim = 0 ∨
      |(controlCore RF G p storedLen lpath st dt).state.vLim - st.vLim| ≤
        2 * (p.acc.1 * dt)) ∧
    ((controlCore RF G p storedLen lpath st dt).state.wLim = 0 ∨
      |(controlCore RF G p storedLen lpath st dt).state.wLim - st.wLim| ≤
        p.acc.2 * dt) := by
  unfold controlCore
  split
  · exact ⟨Or.inl rfl, Or.inl rfl⟩
  · split
    · exact rotateTick_bound RF G p lpath st dt h1 h2
    · exact followTick_bound RF G p storedLen lpath st dt h1 h2

/-- C1 (amended): on every control tick, either the limiter is reset to
zero (no-path, nearest-not-found, or both stop tolerances satisfied), or
`|w_lim − w_lim_prev| ≤ acc[1]·dt` and `|v_lim − v_lim_prev| ≤
2·acc[0]·dt` (the factor 2 from the second `v_lim_.set` when the
angular-velocity limit fires; a single `set`/`increment` changes the
value by at most `accel·dt`). -/
theorem c1_amended (RF : RealFuns α) (G : Geom α) (p : Params α)
    (path : List (Pose2D α)) (frameId : String) (tr : Option (α × α × α))
    (st : CtrlState α) (dt : α) (h1 : 0 ≤ p.acc.1 * dt) (h2 : 0 ≤ p.acc.2 * dt) :
    ((control RF G p path frameId tr st dt).state.vLim = 0 ∨
      |(control RF G p path frameId tr st dt).state.vLim - st.vLim| ≤
        2 * (p.acc.1 * dt)) ∧
    ((control RF G p path frameId tr st dt).state.wLim = 0 ∨
      |(control RF G p path frameId tr st dt).state.wLim - st.wLim| ≤
        p.acc.2 * dt) := by
  unfold control
  split
  · exact ⟨Or.inl rfl, Or.inl rfl⟩
  · cases tr with
    | none =>
      constructor
      · exact Or.inr (by simp; linarith)
      · exact Or.inr (by simp [h2])
    | some t => exact controlCore_bound RF G p path.length _ st dt h1 h2

/-- Witness for C1 (amended) at a concrete rational input. -/
theorem c1_witness :
    (0 : ℚ) ≤ qParams.acc.1 * 1 ∧ (0 : ℚ) ≤ qParams.acc.2 * 1 ∧
    (((control qRF qGeom0 qParams [] "m" none ⟨2, 0, 0⟩ 1).state.vLim = 0 ∨
       |(control qRF qGeom0 qParams [] "m" none ⟨2, 0, 0⟩ 1).state.vLim - (2:ℚ)| ≤
         2 * (qParams.acc.1 * 1)) ∧
     ((control qRF qGeom0 qParams [] "m" none ⟨2, 0, 0⟩ 1).state.wLim = 0 ∨
       |(control qRF qGeom0 qParams [] "m" none ⟨2, 0, 0⟩ 1).state.wLim - (0:ℚ)| ≤
         qParams.acc.2 * 1)) :=
  ⟨by norm_num [qParams], by norm_num [qParams],
    c1_amended qRF qGeom0 qParams [] "m" none ⟨2, 0, 0⟩ 1
      (by norm_num [qParams]) (by norm_num [qParams])⟩

/-- C1 counterexample: a tick with a non-empty prior `v_lim` and an empty
path publishes the clamped-to-zero twist and resets `v_lim` from 1 to 0,
a jump of 1 > acc[0]·dt = 1/10 — the claimed per-tick bound fails on
ticks that clear the limiters (the same `clear()` runs on the tick where
the stop tolerances are first satisfied, trajectory_tracker.cpp:580-586). -/
theorem c1_counterexample :
    (control realRF realGeom cexParams ([] : List (Pose2D ℝ)) "map" (some (0, 0, 0))
        ⟨1, 0, 0⟩ 1).cmdVels = [(0, 0)] ∧
    ¬ (|(control realRF realGeom cexParams ([] : List (Pose2D ℝ)) "map" (some (0, 0, 0))
          ⟨1, 0, 0⟩ 1).state.vLim - (1 : ℝ)| ≤ cexParams.acc.1 * 1) := by
  constructor
  · norm_num [control]
  · norm_num [control, cexParams]

/-! ## C2: negative-velocity rejection in `cbPath` -/

/-- If any element of the loop's input has a negative explicit velocity,
the loop clears the path and reports the error, whatever the
accumulated state. -/
theorem trackLoop_negVel (epsilon : α) (rest : List (Pose2D α)) :
    ∀ (acc : List (Pose2D α)) (pending : Option (Pose2D α)),
      (∃ q ∈ rest, negVel q) → trackLoop epsilon acc pending rest = ([], none, true) := by
  induction rest with
  | nil => simp
  | cons next r ih =>
    rintro acc pending ⟨q, hq, hneg⟩
    cases hv : next.velocity with
    | some v =>
      by_cases hvneg : v < 0
      · simp [trackLoop, hv, hvneg]
      · have hqr : q ∈ r := by
          rcases List.mem_cons.mp hq with rfl | h
          · obtain ⟨v', hv', hlt⟩ := hneg
            rw [hv] at hv'
            exact absurd (Option.some.inj hv' ▸ hlt) hvneg
          · exact h
        simpa [trackLoop, hv, hvneg] using ih _ _ ⟨q, hqr, hneg⟩
    | none =>
      have hqr : q ∈ r := by
        rcases List.mem_cons.mp hq with rfl | h
        · obtain ⟨v', hv', _⟩ := hneg
          rw [hv] at hv'
          exact absurd hv' (by simp)
        · exact h
      simpa [trackLoop, hv] using ih _ _ ⟨q, hqr, hneg⟩

/-- C2 (amended): a received path containing a waypoint at index ≥ 1 with
a negative explicit velocity is rejected as a whole — the stored path is
left empty and the error is logged.  (The first waypoint, index 0, is
stored without this check, trajectory_tracker.cpp:256.) -/
theorem c2_amended (epsilon : α) (poses : List (Pose2D α)) (i : ℕ) (q : Pose2D α)
    (hi : 1 ≤ i) (hq : poses[i]? = some q) (hneg : negVel q) :
    (cbPath epsilon poses).path = [] ∧ (cbPath epsilon poses).errorLogged = true := by
  cases poses with
  | nil => simp at hq
  | cons p rest =>
    obtain ⟨j, rfl⟩ := Nat.exists_eq_add_of_le hi
    have hqr : q ∈ rest := by
      have h' : rest[j]? = some q := by
        rw [Nat.add_comm] at hq
        simpa using hq
      rcases List.getElem?_eq_some.mp h' with ⟨hlt, hEq⟩
      exact hEq ▸ List.getElem_mem hlt
    have := trackLoop_negVel epsilon rest [p] none ⟨q, hqr, hneg⟩
    simp [cbPath, this]

/-- Witness for C2 (amended) at a concrete rational path. -/
theorem c2_witness :
    1 ≤ 1 ∧
    ([⟨(0,0),0,none⟩, ⟨(3,0),0,some (-1)⟩] : List (Pose2D ℚ))[1]?
      = some ⟨(3,0),0,some (-1)⟩ ∧
    negVel (⟨(3,0),0,some (-1)⟩ : Pose2D ℚ) ∧
    ((cbPath (1:ℚ) [⟨(0,0),0,none⟩, ⟨(3,0),0,some (-1)⟩]).path = [] ∧
      (cbPath (1:ℚ) [⟨(0,0),0,none⟩, ⟨(3,0),0,some (-1)⟩]).errorLogged = true) :=
  ⟨le_refl 1, by simp, ⟨-1, rfl, by norm_num⟩,
    c2_amended 1 [⟨(0,0),0,none⟩, ⟨(3,0),0,some (-1)⟩] 1 ⟨(3,0),0,some (-1)⟩
      (le_refl 1) (by simp) ⟨-1, rfl, by norm_num⟩⟩

/-- C2 counterexample: a path whose *first* waypoint has velocity −1 is
accepted unchanged and no error is logged — the explicit "including the
first waypoint" part of the claim fails (trajectory_tracker.cpp:256
pushes the first waypoint before any check). -/
theorem c2_counterexample :
    negVel (⟨(0,0), 0, some (-1)⟩ : Pose2D ℝ) ∧
    (cbPath (1 : ℝ) [⟨(0,0), 0, some (-1)⟩]).path = [⟨(0,0), 0, some (-1)⟩] ∧
    (cbPath (1 : ℝ) [⟨(0,0), 0, some (-1)⟩]).errorLogged = false := by
  refine ⟨⟨-1, rfl, by norm_num⟩, ?_, ?_⟩ <;> norm_num [cbPath, trackLoop]

/-! ## C3: non-positive `ang_resolution` in `cbMap` -/

/-- C3 evaluation at the failing input: with `getAngularGrid() = 0` a
base-map message still gets stamped (`setBaseMap` runs) and the snapshot
is still published; the error is logged but no exception is thrown —
the `std::runtime_error` at costmap_3d.cpp:66 is constructed and
discarded, the `throw` is missing. -/
theorem c3_eval : cbMap 0 ⟨"map", 10, 10⟩ =
    ⟨true, false, true, true⟩ := by decide

/-! ## C9: overlay rejection in `cbMapOverlay` -/

/-- C9 (amended): an overlay whose frame differs from the base map's is
logged and dropped; an overlay arriving while the base map is degenerate
(`width = 0 ∨ height = 0`) is dropped *silently* (no log).  In both cases
`processMapOverlay` is not invoked and the C-space volume is unchanged. -/
theorem c9_amended {V : Type} (process : V → OccupancyGrid → V)
    (baseFrame : String) (bw bh : ℕ) (vol : V) (msg : OccupancyGrid) :
    (msg.frameId ≠ baseFrame →
      cbMapOverlay process baseFrame bw bh vol msg = ⟨true, false, vol⟩) ∧
    (msg.frameId = baseFrame → bw = 0 ∨ bh = 0 →
      cbMapOverlay process baseFrame bw bh vol msg = ⟨false, false, vol⟩) := by
  constructor
  · intro h
    rw [cbMapOverlay, if_pos (Ne.symm h)]
  · intro h hd
    rw [cbMapOverlay, if_neg (by simp [h]),
      if_pos (by rcases hd with h0 | h0 <;> simp [h0])]

/-- Witness for C9 (amended) at concrete inputs. -/
theorem c9_witness :
    cbMapOverlay (fun (v : ℕ) _ => v) "map" 3 3 7 ⟨"level2", 1, 1⟩ = ⟨true, false, 7⟩ ∧
    cbMapOverlay (fun (v : ℕ) _ => v) "map" 0 3 7 ⟨"map", 1, 1⟩ = ⟨false, false, 7⟩ :=
  ⟨(c9_amended (fun v _ => v) "map" 3 3 7 ⟨"level2", 1, 1⟩).1 (by decide),
   (c9_amended (fun v _ => v) "map" 0 3 7 ⟨"map", 1, 1⟩).2 rfl (Or.inl rfl)⟩

/-- C9 counterexample: an overlay with the *matching* frame arriving while
the base map has width 0 is dropped without any error log — the claim's
"is logged and dropped" fails for the degenerate-base case
(costmap_3d.cpp:89-91 is a bare `return`). -/
theorem c9_counterexample :
    (cbMapOverlay (fun (v : ℕ) _ => v) "map" 0 5 7 ⟨"map", 3, 3⟩).errorLogged = false ∧
    (cbMapOverlay (fun (v : ℕ) _ => v) "map" 0 5 7 ⟨"map", 3, 3⟩).overlayProcessed
      = false := by decide

/-! ## C4: `sign_vel` determination -/

/-- C4 (amended): with `allow_backward` the direction flip (`sign_vel =
−1`, `angle += π`) happens exactly when the heading dot product of the
path yaw at the nearest waypoint and the segment heading `atan2(vec.y,
vec.x)` is negative; without `allow_backward` the pose angle is the
segment heading itself, the dot product is `cos² + sin² ≥ 0`, and
`sign_vel = 1` always (no flip). -/
theorem c4_amended (RF : RealFuns α) (vec : α × α) (yaw : α) :
    (signVelAngle RF vec yaw true =
      if RF.cos (RF.atan2 vec.2 vec.1) * RF.cos yaw +
          RF.sin (RF.atan2 vec.2 vec.1) * RF.sin yaw < 0 then
        (-1, -(RF.atan2 vec.2 vec.1) + RF.pi)
      else (1, -(RF.atan2 vec.2 vec.1))) ∧
    signVelAngle RF vec yaw false = (1, -(RF.atan2 vec.2 vec.1)) := by
  constructor
  · simp [signVelAngle, neg_neg]
  · have hnot : ¬ (RF.cos (RF.atan2 vec.2 vec.1) * RF.cos (RF.atan2 vec.2 vec.1) +
        RF.sin (RF.atan2 vec.2 vec.1) * RF.sin (RF.atan2 vec.2 vec.1) < 0) :=
      not_lt.mpr (add_nonneg (mul_self_nonneg _) (mul_self_nonneg _))
    simp [signVelAngle, neg_neg, hnot]

/-- C4 counterexample: with `allow_backward = false`, segment heading 0
(`vec = (1, 0)`) and path yaw `π` at the nearest waypoint, the claimed
dot product is `cos π = −1 < 0`, yet the code leaves `sign_vel = 1` and
does not add `π` — lines 475-481 compare the segment heading with itself
when `allow_backward_` is false. -/
theorem c4_counterexample :
    Real.cos (realRF.atan2 (0:ℝ) 1) * Real.cos Real.pi +
      Real.sin (realRF.atan2 (0:ℝ) 1) * Real.sin Real.pi < 0 ∧
    (signVelAngle realRF ((1:ℝ), (0:ℝ)) Real.pi false).1 = 1 := by
  constructor
  · norm_num [realRF, realAtan2, Real.arctan_zero, Real.cos_pi, Real.sin_pi]
  · norm_num [signVelAngle, realRF, realAtan2, Real.arctan_zero]

/-! ## C7: GOAL / FOLLOWING on the emit path -/

/-- C7 (amended): every tick with a transform publishes exactly one
status; that status is `NO_PATH` or `FAR_FROM_PATH` (the short-circuit
returns, which also publish a zero twist or none), or else it is `GOAL`
precisely when `|distance_remains| < goal_tolerance_dist`,
`|angle_remains| < goal_tolerance_ang` and the local goal is the end of
the (transformed) path, and `FOLLOWING` otherwise. -/
theorem c7_amended (RF : RealFuns α) (G : Geom α) (p : Params α)
    (path : List (Pose2D α)) (frameId : String) (t : α × α × α)
    (st : CtrlState α) (dt : α) :
    (control RF G p path frameId (some t) st dt).statuses =
      [(control RF G p path frameId (some t) st dt).statuses.headD
        ⟨0, 0, StatusCode.NO_PATH⟩] ∧
    (((control RF G p path frameId (some t) st dt).statuses.headD
        ⟨0, 0, StatusCode.NO_PATH⟩).status = StatusCode.NO_PATH ∨
     ((control RF G p path frameId (some t) st dt).statuses.headD
        ⟨0, 0, StatusCode.NO_PATH⟩).status = StatusCode.FAR_FROM_PATH ∨
     ((control RF G p path frameId (some t) st dt).statuses.headD
        ⟨0, 0, StatusCode.NO_PATH⟩).status =
       (if |((control RF G p path frameId (some t) st dt).statuses.headD
              ⟨0, 0, StatusCode.NO_PATH⟩).distanceRemains| < p.goalToleranceDist ∧
           |((control RF G p path frameId (some t) st dt).statuses.headD
              ⟨0, 0, StatusCode.NO_PATH⟩).angleRemains| < p.goalToleranceAng ∧
           iLocalGoalOf G p (lpathOf RF p path t) st = (lpathOf RF p path t).length
        then StatusCode.GOAL else StatusCode.FOLLOWING)) := by
  simp only [control, controlCore, rotateTick, followTick, finishTick]
  split
  · exact ⟨rfl, Or.inl rfl⟩
  · split
    · exact ⟨rfl, Or.inl rfl⟩
    · split
      · split
        · exact ⟨rfl, Or.inr (Or.inr rfl)⟩
        · exact ⟨rfl, Or.inr (Or.inr rfl)⟩
      · split
        · exact ⟨rfl, Or.inr (Or.inl rfl)⟩
        · exact ⟨rfl, Or.inr (Or.inr rfl)⟩

/-- C7 counterexample: the empty-path tick publishes a twist `(0, 0)` and
the status `NO_PATH` (trajectory_tracker.cpp:373-384) — a
twist-publishing tick whose status is neither `GOAL` nor `FOLLOWING`,
refuting the claimed dichotomy over all twist-publishing ticks. -/
theorem c7_counterexample :
    (control realRF realGeom cexParams ([] : List (Pose2D ℝ)) "map" (some (0, 0, 0))
        ⟨0, 0, 0⟩ 1).cmdVels = [(0, 0)] ∧
    (control realRF realGeom cexParams ([] : List (Pose2D ℝ)) "map" (some (0, 0, 0))
        ⟨0, 0, 0⟩ 1).statuses = [⟨0, 0, StatusCode.NO_PATH⟩] ∧
    StatusCode.NO_PATH ≠ StatusCode.GOAL ∧
    StatusCode.NO_PATH ≠ StatusCode.FOLLOWING := by
  refine ⟨?_, ?_, by decide, by decide⟩ <;> norm_num [control]

/-! ## C8: transform-failure ticks -/

/-- C8: when the `robot ← odom` lookup throws in `cbTimer`
(trajectory_tracker.cpp:341-352), or the `odom ← path` lookup throws
inside `control` (lines 414-420, with the path present so that the
lookup is reached), exactly one `NO_PATH` status is published, no twist
is published, and the limiter state is untouched. -/
theorem c8_transform_failure (RF : RealFuns α) (G : Geom α) (p : Params α)
    (path : List (Pose2D α)) (frameId : String) (tr : Option (α × α × α))
    (st : CtrlState α) (dt : α) (hf : ¬ frameId = "") (hp : ¬ path = []) :
    ((cbTimer RF G p path frameId none tr st).statuses =
        [⟨0, 0, StatusCode.NO_PATH⟩] ∧
      (cbTimer RF G p path frameId none tr st).cmdVels = [] ∧
      (cbTimer RF G p path frameId none tr st).state = st) ∧
    ((control RF G p path frameId none st dt).statuses =
        [⟨0, 0, StatusCode.NO_PATH⟩] ∧
      (control RF G p path frameId none st dt).cmdVels = [] ∧
      (control RF G p path frameId none st dt).state = st) := by
  refine ⟨⟨rfl, rfl, rfl⟩, ?_⟩
  unfold control
  rw [if_neg (by simp [hf, hp])]
  exact ⟨rfl, rfl, rfl⟩

/-- Witness for C8 at a concrete rational input. -/
theorem c8_witness :
    ¬ ("odom" = "") ∧ ¬ (([⟨(0,0),0,none⟩] : List (Pose2D ℚ)) = []) ∧
    (((cbTimer qRF qGeom0 qParams [⟨(0,0),0,none⟩] "odom" none none ⟨1,2,3⟩).statuses =
        [⟨0, 0, StatusCode.NO_PATH⟩] ∧
      (cbTimer qRF qGeom0 qParams [⟨(0,0),0,none⟩] "odom" none none ⟨1,2,3⟩).cmdVels = [] ∧
      (cbTimer qRF qGeom0 qParams [⟨(0,0),0,none⟩] "odom" none none ⟨1,2,3⟩).state = ⟨1,2,3⟩) ∧
     ((control qRF qGeom0 qParams [⟨(0,0),0,none⟩] "odom" none ⟨1,2,3⟩ 1).statuses =
        [⟨0, 0, StatusCode.NO_PATH⟩] ∧
      (control qRF qGeom0 qParams [⟨(0,0),0,none⟩] "odom" none ⟨1,2,3⟩ 1).cmdVels = [] ∧
      (control qRF qGeom0 qParams [⟨(0,0),0,none⟩] "odom" none ⟨1,2,3⟩ 1).state = ⟨1,2,3⟩)) :=
  ⟨by simp, by simp,
    c8_transform_failure qRF qGeom0 qParams [⟨(0,0),0,none⟩] "odom" none ⟨1,2,3⟩ 1
      (by simp) (by simp)⟩

/-! ## C5: far-from-path abort -/

/-- C5: on a tick that reaches path-following mode (path present,
transform available, nearest found, stop-and-rotate condition false), if
`|dist_from_path| > d_stop` then a zero twist and one `FAR_FROM_PATH`
status are published and the tick returns with the limiters (and
`path_step_done`) untouched; `dist_from_path` is the signed line distance
`dist_err` for interior nearest indices and the negated distance from the
lookahead origin to the nearest (endpoint) waypoint when the nearest
index is 0 or at least the last index of the stored path. -/
theorem c5_far_from_path (RF : RealFuns α) (G : Geom α) (p : Params α)
    (path : List (Pose2D α)) (frameId : String) (t : α × α × α)
    (st : CtrlState α) (dt : α)
    (hf : ¬ frameId = "") (hp : ¬ path = [])
    (hn : ¬ iNearestOf RF G p (lpathOf RF p path t) st = (lpathOf RF p path t).length)
    (hrot : ¬ ((|p.rotateAng| < RF.pi ∧
          RF.cos (angleOf RF G p (lpathOf RF p path t) st) < RF.cos p.rotateAng) ∨
        |remainLocalOf RF G p (lpathOf RF p path t) st| < p.stopToleranceDist ∨
        pathLengthOf G (lpathOf RF p path t) < p.minTrackPath ∨
        ((vecOf RF G p (lpathOf RF p path t) st).2 = 0 ∧
          (vecOf RF G p (lpathOf RF p path t) st).1 = 0)))
    (hfar : p.dStop < |distFromPathOf RF G p path.length (lpathOf RF p path t) st|) :
    (control RF G p path frameId (some t) st dt).cmdVels = [(0, 0)] ∧
    (control RF G p path frameId (some t) st dt).statuses =
      [⟨remainOf RF G p (lpathOf RF p path t) st,
        angleOf RF G p (lpathOf RF p path t) st, StatusCode.FAR_FROM_PATH⟩] ∧
    (control RF G p path frameId (some t) st dt).state = st ∧
    ((iNearestOf RF G p (lpathOf RF p path t) st = 0 ∨
        path.length ≤ iNearestOf RF G p (lpathOf RF p path t) st + 1 →
      distFromPathOf RF G p path.length (lpathOf RF p path t) st =
        -(RF.sqrt (sqnormV (vsub (nearestPoseOf RF G p (lpathOf RF p path t) st).pos
          (originOf RF p st))))) ∧
     (¬ (iNearestOf RF G p (lpathOf RF p path t) st = 0 ∨
          path.length ≤ iNearestOf RF G p (lpathOf RF p path t) st + 1) →
      distFromPathOf RF G p path.length (lpathOf RF p path t) st =
        distErrOf RF G p (lpathOf RF p path t) st)) := by
  have hchar1 : iNearestOf RF G p (lpathOf RF p path t) st = 0 ∨
      path.length ≤ iNearestOf RF G p (lpathOf RF p path t) st + 1 →
      distFromPathOf RF G p path.length (lpathOf RF p path t) st =
        -(RF.sqrt (sqnormV (vsub (nearestPoseOf RF G p (lpathOf RF p path t) st).pos
          (originOf RF p st)))) := by
    intro h
    by_cases h0 : iNearestOf RF G p (lpathOf RF p path t) st = 0
    · rw [distFromPathOf, if_pos h0]
    · rcases h with h | hL
      · exact absurd h h0
      · rw [distFromPathOf, if_neg h0, if_pos hL]
  have hchar2 : ¬ (iNearestOf RF G p (lpathOf RF p path t) st = 0 ∨
      path.length ≤ iNearestOf RF G p (lpathOf RF p path t) st + 1) →
      distFromPathOf RF G p path.length (lpathOf RF p path t) st =
        distErrOf RF G p (lpathOf RF p path t) st := by
    intro h
    push_neg at h
    rw [distFromPathOf, if_neg h.1, if_neg (not_le.mpr h.2)]
  simp only [control, controlCore, followTick]
  rw [if_neg (by simp [hf, hp]), if_neg hn, if_neg hrot, if_pos hfar]
  exact ⟨rfl, rfl, rfl, hchar1, hchar2⟩

/-- Geometry instantiation driving the C5 witness into the
path-following branch. -/
def qGeomC5 : Geom ℚ :=
  { findLocalGoal := fun l _ _ => l.length
    findNearest := fun _ b _ _ _ _ => b + 1
    projection2d := fun _ _ o => o
    lineDistance := fun _ _ _ => 0
    remainedDistance := fun _ _ _ _ => 5
    getCurvature := fun _ _ _ _ _ => 0
    pathLength := fun l => (l.length : ℚ)
    angleNormalized := id }

/-- Witness for C5 at a concrete rational input: a two-waypoint path with
the robot's lookahead origin 3 m from the endpoint and `d_stop = 1`. -/
theorem c5_witness :
    (¬ ("map" : String) = "") ∧
    (¬ ([⟨(0,0),0,none⟩, ⟨(3,0),0,none⟩] : List (Pose2D ℚ)) = []) ∧
    (¬ iNearestOf qRF qGeomC5 qParams
        (lpathOf qRF qParams [⟨(0,0),0,none⟩, ⟨(3,0),0,none⟩] (0,0,0)) ⟨0,0,0⟩ =
      (lpathOf qRF qParams [⟨(0,0),0,none⟩, ⟨(3,0),0,none⟩] (0,0,0)).length) ∧
    qParams.dStop < |distFromPathOf qRF qGeomC5 qParams 2
      (lpathOf qRF qParams [⟨(0,0),0,none⟩, ⟨(3,0),0,none⟩] (0,0,0)) ⟨0,0,0⟩| ∧
    (control qRF qGeomC5 qParams [⟨(0,0),0,none⟩, ⟨(3,0),0,none⟩] "map" (some (0,0,0))
        ⟨0,0,0⟩ 1).cmdVels = [(0, 0)] ∧
    (control qRF qGeomC5 qParams [⟨(0,0),0,none⟩, ⟨(3,0),0,none⟩] "map" (some (0,0,0))
        ⟨0,0,0⟩ 1).state = ⟨0,0,0⟩ := by
  have hlp : lpathOf qRF qParams [⟨(0,0),0,none⟩, ⟨(3,0),0,none⟩] ((0,0,0) : ℚ × ℚ × ℚ) =
      [⟨(0,0),0,none⟩, ⟨(3,0),0,none⟩] := by
    norm_num [lpathOf, subsampleIdx, transformPose, qRF, qParams, List.range_succ,
      List.filter, List.getD]
  have h1 : ¬ ("map" : String) = "" := by simp
  have h2 : ¬ ([⟨(0,0),0,none⟩, ⟨(3,0),0,none⟩] : List (Pose2D ℚ)) = [] := by simp
  have h3 : iNearestOf qRF qGeomC5 qParams
      (lpathOf qRF qParams [⟨(0,0),0,none⟩, ⟨(3,0),0,none⟩] (0,0,0)) ⟨0,0,0⟩ = 1 := by
    rw [hlp]; rfl
  have hlen : (lpathOf qRF qParams [⟨(0,0),0,none⟩, ⟨(3,0),0,none⟩]
      ((0,0,0) : ℚ × ℚ × ℚ)).length = 2 := by rw [hlp]; rfl
  have h4 : qParams.dStop < |distFromPathOf qRF qGeomC5 qParams 2
      (lpathOf qRF qParams [⟨(0,0),0,none⟩, ⟨(3,0),0,none⟩] (0,0,0)) ⟨0,0,0⟩| := by
    rw [hlp]
    norm_num [distFromPathOf, iNearestOf, iLocalGoalOf, maxSearchRangeOf, originOf,
      nearestPoseOf, qRF, qGeomC5, qParams, sqnormV, vsub, dPose, List.getD]
  have h5 : ¬ ((|qParams.rotateAng| < qRF.pi ∧
        qRF.cos (angleOf qRF qGeomC5 qParams
          (lpathOf qRF qParams [⟨(0,0),0,none⟩, ⟨(3,0),0,none⟩] (0,0,0)) ⟨0,0,0⟩) <
          qRF.cos qParams.rotateAng) ∨
      |remainLocalOf qRF qGeomC5 qParams
        (lpathOf qRF qParams [⟨(0,0),0,none⟩, ⟨(3,0),0,none⟩] (0,0,0)) ⟨0,0,0⟩| <
        qParams.stopToleranceDist ∨
      pathLengthOf qGeomC5
        (lpathOf qRF qParams [⟨(0,0),0,none⟩, ⟨(3,0),0,none⟩] (0,0,0)) <
        qParams.minTrackPath ∨
      ((vecOf qRF qGeomC5 qParams
          (lpathOf qRF qParams [⟨(0,0),0,none⟩, ⟨(3,0),0,none⟩] (0,0,0)) ⟨0,0,0⟩).2 = 0 ∧
        (vecOf qRF qGeomC5 qParams
          (lpathOf qRF qParams [⟨(0,0),0,none⟩, ⟨(3,0),0,none⟩] (0,0,0)) ⟨0,0,0⟩).1 = 0)) := by
    rw [hlp]
    norm_num [qParams, qRF, qGeomC5, angleOf, remainLocalOf, pathLengthOf, vecOf,
      signVelAngle, iNearestOf, iLocalGoalOf, maxSearchRangeOf, originOf, nearestPoseOf,
      prevPoseOf, posOnLineOf, vsub, dPose, List.getD]
  have main := c5_far_from_path qRF qGeomC5 qParams [⟨(0,0),0,none⟩, ⟨(3,0),0,none⟩]
    "map" (0,0,0) ⟨0,0,0⟩ 1 h1 h2 (by rw [h3, hlen]; decide) h5 h4
  exact ⟨h1, h2, by rw [h3, hlen]; decide, h4, main.1, main.2.2.1⟩

/-! ## C10: `path_step_done` monotonicity and bounds -/

/-- C10: between two path receipts, a control tick never decreases
`path_step_done` and keeps it within `[0, lpath.length]` (given the
spec-guaranteed ranges of `findLocalGoal` — it searches forward from its
begin iterator — and `findNearest`); transform-failure ticks leave it
unchanged; a received path resets it to 0. -/
theorem c10_path_step_done (RF : RealFuns α) (G : Geom α) (p : Params α)
    (path : List (Pose2D α)) (frameId : String) (t : α × α × α)
    (st : CtrlState α) (dt : α) (epsilon : α) (poses : List (Pose2D α))
    (hlg : ∀ (l : List (Pose2D α)) (b : ℕ), b ≤ l.length →
      b ≤ G.findLocalGoal l b p.allowBackward ∧
        G.findLocalGoal l b p.allowBackward ≤ l.length)
    (hfn : ∀ (l : List (Pose2D α)) (b e : ℕ) (o : α × α) (r e' : α),
      G.findNearest l b e o r e' ≤ l.length)
    (hst : st.pathStepDone ≤ (lpathOf RF p path t).length) :
    (st.pathStepDone ≤
        (control RF G p path frameId (some t) st dt).state.pathStepDone ∧
      (control RF G p path frameId (some t) st dt).state.pathStepDone ≤
        (lpathOf RF p path t).length) ∧
    (control RF G p path frameId none st dt).state.pathStepDone = st.pathStepDone ∧
    (cbPath epsilon poses).pathStepDone = 0 := by
  have hbound := hlg (lpathOf RF p path t) st.pathStepDone hst
  have hnear : iNearestOf RF G p (lpathOf RF p path t) st - 1 ≤
      (lpathOf RF p path t).length :=
    le_trans (Nat.sub_le _ _) (hfn _ _ _ _ _ _)
  refine ⟨?_, ?_, ?_⟩
  · simp only [control, controlCore, rotateTick, followTick, finishTick, iLocalGoalOf]
    split
    · exact ⟨le_refl _, hst⟩
    · split
      · exact ⟨le_refl _, hst⟩
      · split
        · split
          · dsimp only
            split
            · exact ⟨hbound.1, hbound.2⟩
            · exact ⟨le_max_left _ _, max_le hst hnear⟩
          · dsimp only
            exact ⟨le_max_left _ _, max_le hst hnear⟩
        · split
          · exact ⟨le_refl _, hst⟩
          · dsimp only
            exact ⟨le_max_left _ _, max_le hst hnear⟩
  · simp only [control]
    split
    · rfl
    · rfl
  · cases poses with
    | nil => rfl
    | cons q rest =>
      simp only [cbPath]
      split
      · rfl
      · rfl

/-- Witness for C10 at a concrete rational input. -/
theorem c10_witness :
    (∀ (l : List (Pose2D ℚ)) (b : ℕ), b ≤ l.length →
      b ≤ qGeom0.findLocalGoal l b qParams.allowBackward ∧
        qGeom0.findLocalGoal l b qParams.allowBackward ≤ l.length) ∧
    (∀ (l : List (Pose2D ℚ)) (b e : ℕ) (o : ℚ × ℚ) (r e' : ℚ),
      qGeom0.findNearest l b e o r e' ≤ l.length) ∧
    (0 ≤ (lpathOf qRF qParams [⟨(0,0),0,none⟩] ((0,0,0) : ℚ × ℚ × ℚ)).length) ∧
    ((0 ≤ (control qRF qGeom0 qParams [⟨(0,0),0,none⟩] "map" (some (0,0,0))
          ⟨0,0,0⟩ 1).state.pathStepDone ∧
      (control qRF qGeom0 qParams [⟨(0,0),0,none⟩] "map" (some (0,0,0))
          ⟨0,0,0⟩ 1).state.pathStepDone ≤
        (lpathOf qRF qParams [⟨(0,0),0,none⟩] (0,0,0)).length) ∧
     (control qRF qGeom0 qParams [⟨(0,0),0,none⟩] "map" none ⟨0,0,0⟩ 1).state.pathStepDone
        = 0 ∧
     (cbPath (1:ℚ) [⟨(0,0),0,some 2⟩]).pathStepDone = 0) :=
  ⟨fun _ _ hb => ⟨hb, le_refl _⟩,
   fun l b _ _ _ _ => Nat.min_le_right b l.length,
   Nat.zero_le _,
   c10_path_step_done qRF qGeom0 qParams [⟨(0,0),0,none⟩] "map" (0,0,0) ⟨0,0,0⟩ 1 1
     [⟨(0,0),0,some 2⟩]
     (fun _ _ hb => ⟨hb, le_refl _⟩)
     (fun l b _ _ _ _ => Nat.min_le_right b l.length)
     (Nat.zero_le _)⟩

/-! ## C6: near-duplicate collapse in `cbPath` -/

/-- The `cbPath` loop processes an appended suffix from the state the
prefix left behind, provided the prefix did not error. -/
theorem trackLoop_append (epsilon : α) (l1 : List (Pose2D α)) :
    ∀ (l2 acc : List (Pose2D α)) (pending : Option (Pose2D α))
      (p' : List (Pose2D α)) (pd' : Option (Pose2D α)),
      trackLoop epsilon acc pending l1 = (p', pd', false) →
      trackLoop epsilon acc pending (l1 ++ l2) = trackLoop epsilon p' pd' l2 := by
  induction l1 with
  | nil =>
    intro l2 acc pending p' pd' h
    obtain ⟨rfl, rfl⟩ : acc = p' ∧ pending = pd' := by
      have h' : (acc, pending, false) = (p', pd', false) := h
      exact ⟨congrArg (·.1) h', congrArg (·.2.1) h'⟩
    rfl
  | cons x l1 ih =>
    intro l2 acc pending p' pd' h
    cases hv : x.velocity with
    | some v =>
      by_cases hneg : v < 0
      · rw [show trackLoop epsilon acc pending (x :: l1) = ([], none, true) by
            simp [trackLoop, hv, hneg]] at h
        exact absurd (congrArg (·.2.2) h) (by simp)
      · have hgoal : trackLoop epsilon acc pending (x :: l1 ++ l2) =
            trackLoop epsilon (stepPose epsilon acc pending x).1
              (stepPose epsilon acc pending x).2 (l1 ++ l2) := by
          simp [trackLoop, hv, hneg]
        have hh : trackLoop epsilon (stepPose epsilon acc pending x).1
            (stepPose epsilon acc pending x).2 l1 = (p', pd', false) := by
          rw [show trackLoop epsilon acc pending (x :: l1) =
              trackLoop epsilon (stepPose epsilon acc pending x).1
                (stepPose epsilon acc pending x).2 l1 by
            simp [trackLoop, hv, hneg]] at h
          exact h
        rw [hgoal, ih l2 _ _ p' pd' hh]
    | none =>
      have hgoal : trackLoop epsilon acc pending (x :: l1 ++ l2) =
          trackLoop epsilon (stepPose epsilon acc pending x).1
            (stepPose epsilon acc pending x).2 (l1 ++ l2) := by
        simp [trackLoop, hv]
      have hh : trackLoop epsilon (stepPose epsilon acc pending x).1
          (stepPose epsilon acc pending x).2 l1 = (p', pd', false) := by
        rw [show trackLoop epsilon acc pending (x :: l1) =
            trackLoop epsilon (stepPose epsilon acc pending x).1
              (stepPose epsilon acc pending x).2 l1 by
          simp [trackLoop, hv]] at h
        exact h
      rw [hgoal, ih l2 _ _ p' pd' hh]

/-- With no pending marker, consecutive waypoints at squared distance
`≥ ε²` from their predecessor are appended verbatim. -/
theorem trackLoop_far (epsilon : α) (rest : List (Pose2D α)) :
    ∀ (acc : List (Pose2D α)) (a : Pose2D α), acc.getLast? = some a →
      List.Chain' (fun u w => epsilon * epsilon ≤ sqnormV (vsub u.pos w.pos)) (a :: rest) →
      (∀ q ∈ rest, ¬ negVel q) →
      trackLoop epsilon acc none rest = (acc ++ rest, none, false) := by
  induction rest with
  | nil => intro acc a _ _ _; simp [trackLoop]
  | cons x r ih =>
    intro acc a hlast hchain hnov
    have hfar : epsilon * epsilon ≤ sqnormV (vsub a.pos x.pos) :=
      (List.chain'_cons.mp hchain).1
    have hstep : stepPose epsilon acc none x = (acc ++ [x], none) := by
      unfold stepPose
      rw [hlast]
      simp only [Option.getD_some]
      rw [if_pos hfar]
    have hnv : ¬ negVel x := hnov x (List.mem_cons_self x r)
    have htail : trackLoop epsilon (acc ++ [x]) none r = ((acc ++ [x]) ++ r, none, false) :=
      ih (acc ++ [x]) x (List.getLast?_concat acc) (List.chain'_cons.mp hchain).2
        (fun q hq => hnov q (List.mem_cons_of_mem x hq))
    cases hv : x.velocity with
    | some v =>
      have hneg : ¬ v < 0 := fun hlt => hnv ⟨v, hv, hlt⟩
      simp only [trackLoop, hv]
      rw [if_neg hneg, hstep]
      simpa [List.append_assoc] using htail
    | none =>
      simp only [trackLoop, hv]
      rw [hstep]
      simpa [List.append_assoc] using htail

/-- A run of waypoints all within `ε` of the last stored waypoint `a`
collapses into the pending marker `(a.pos, yaw/velocity of the last)`,
whatever the initial pending marker. -/
theorem trackLoop_near (epsilon : α) (ys : List (Pose2D α)) (ylast : Pose2D α) :
    ∀ (acc : List (Pose2D α)) (pending : Option (Pose2D α)) (a : Pose2D α),
      acc.getLast? = some a →
      (∀ q ∈ ys ++ [ylast], sqnormV (vsub a.pos q.pos) < epsilon * epsilon) →
      (∀ q ∈ ys ++ [ylast], ¬ negVel q) →
      trackLoop epsilon acc pending (ys ++ [ylast]) =
        (acc, some ⟨a.pos, ylast.yaw, ylast.velocity⟩, false) := by
  induction ys with
  | nil =>
    intro acc pending a hlast hnear hnov
    have hx : sqnormV (vsub a.pos ylast.pos) < epsilon * epsilon := hnear _ (by simp)
    have hnv : ¬ negVel ylast := hnov _ (by simp)
    have hstep : stepPose epsilon acc pending ylast =
        (acc, some ⟨a.pos, ylast.yaw, ylast.velocity⟩) := by
      unfold stepPose
      rw [hlast]
      simp only [Option.getD_some]
      rw [if_neg (not_le.mpr hx)]
    cases hv : ylast.velocity with
    | some v =>
      have hneg : ¬ v < 0 := fun hlt => hnv ⟨v, hv, hlt⟩
      simp only [trackLoop, hv]
      rw [if_neg hneg, hstep]
      simp [trackLoop, hv]
    | none =>
      simp only [trackLoop, hv]
      rw [hstep]
      simp [trackLoop, hv]
  | cons y ys ih =>
    intro acc pending a hlast hnear hnov
    have hy : sqnormV (vsub a.pos y.pos) < epsilon * epsilon := hnear _ (by simp)
    have hnv : ¬ negVel y := hnov _ (by simp)
    have hstep : stepPose epsilon acc pending y =
        (acc, some ⟨a.pos, y.yaw, y.velocity⟩) := by
      unfold stepPose
      rw [hlast]
      simp only [Option.getD_some]
      rw [if_neg (not_le.mpr hy)]
    have htail := ih acc (some ⟨a.pos, y.yaw, y.velocity⟩) a hlast
      (fun q hq => hnear q (by simp at hq ⊢; tauto))
      (fun q hq => hnov q (by simp at hq ⊢; tauto))
    cases hv : y.velocity with
    | some v =>
      have hneg : ¬ v < 0 := fun hlt => hnv ⟨v, hv, hlt⟩
      simp only [trackLoop, hv]
      rw [if_neg hneg, hstep]
      exact htail
    | none =>
      simp only [trackLoop, hv]
      rw [hstep]
      exact htail

/-- C6 (amended): in a received path with no negative explicit velocity
in the involved waypoints: (a) a run of consecutive waypoints all within
`ε` of the last stored waypoint `a` — maximal on the left because the
prefix left no pending marker — collapses, *wherever it occurs in the
message*, to the single in-place-turn marker `⟨a.pos, yaw and velocity
of the run's last waypoint⟩`: the stored result equals that of the
message with the run replaced by the marker, for every continuation `zs`
(interior runs are flushed before the next far waypoint at
trajectory_tracker.cpp:270-275, end-of-message runs at lines 284-285);
(b) explicitly, a run ending the message stores `S ++ [marker]`; and
(c) a path whose consecutive positions all differ by at least `ε` is
stored with every waypoint unchanged in order and position. -/
theorem c6_amended (epsilon : α) (x : Pose2D α) (xs S ys' zs : List (Pose2D α))
    (a ylast : Pose2D α)
    (hpre : trackLoop epsilon [x] none xs = (S, none, false))
    (hlast : S.getLast? = some a)
    (hnear : ∀ q ∈ ys' ++ [ylast], sqnormV (vsub a.pos q.pos) < epsilon * epsilon)
    (hnov : ∀ q ∈ ys' ++ [ylast], ¬ negVel q) :
    cbPath epsilon (x :: (xs ++ ((ys' ++ [ylast]) ++ zs))) =
      cbPath epsilon (x :: (xs ++ ((⟨a.pos, ylast.yaw, ylast.velocity⟩ : Pose2D α) :: zs))) ∧
    (cbPath epsilon (x :: (xs ++ (ys' ++ [ylast])))).path =
      S ++ [⟨a.pos, ylast.yaw, ylast.velocity⟩] ∧
    (List.Chain' (fun u w => epsilon * epsilon ≤ sqnormV (vsub u.pos w.pos)) (x :: xs) →
      (∀ q ∈ xs, ¬ negVel q) →
      (cbPath epsilon (x :: xs)).path = x :: xs) := by
  have hrun : trackLoop epsilon S none (ys' ++ [ylast]) =
      (S, some ⟨a.pos, ylast.yaw, ylast.velocity⟩, false) :=
    trackLoop_near epsilon ys' ylast S none a hlast hnear hnov
  have hpos : 0 < epsilon * epsilon :=
    lt_of_le_of_lt (add_nonneg (mul_self_nonneg _) (mul_self_nonneg _))
      (hnear ylast (by simp))
  have hstepm : stepPose epsilon S none (⟨a.pos, ylast.yaw, ylast.velocity⟩ : Pose2D α) =
      (S, some ⟨a.pos, ylast.yaw, ylast.velocity⟩) := by
    unfold stepPose
    rw [hlast]
    simp only [Option.getD_some]
    rw [if_neg (not_le.mpr (by simpa [sqnormV, vsub] using hpos))]
  have hnvm : ¬ negVel (⟨a.pos, ylast.yaw, ylast.velocity⟩ : Pose2D α) :=
    hnov ylast (by simp)
  have hmstep : trackLoop epsilon S none
        ((⟨a.pos, ylast.yaw, ylast.velocity⟩ : Pose2D α) :: zs) =
      trackLoop epsilon S (some ⟨a.pos, ylast.yaw, ylast.velocity⟩) zs := by
    cases hv : ylast.velocity with
    | some v =>
      have hneg : ¬ v < 0 := fun hlt => hnvm ⟨v, hv, hlt⟩
      rw [hv] at hstepm
      simp only [trackLoop, hv]
      rw [if_neg hneg, hstepm]
    | none =>
      rw [hv] at hstepm
      simp only [trackLoop, hv]
      rw [hstepm]
  refine ⟨?_, ?_, ?_⟩
  · have hL : trackLoop epsilon [x] none (xs ++ ((ys' ++ [ylast]) ++ zs)) =
        trackLoop epsilon S (some ⟨a.pos, ylast.yaw, ylast.velocity⟩) zs := by
      rw [trackLoop_append epsilon xs ((ys' ++ [ylast]) ++ zs) [x] none S none hpre,
        trackLoop_append epsilon (ys' ++ [ylast]) zs S none S
          (some ⟨a.pos, ylast.yaw, ylast.velocity⟩) hrun]
    have hR : trackLoop epsilon [x] none
          (xs ++ ((⟨a.pos, ylast.yaw, ylast.velocity⟩ : Pose2D α) :: zs)) =
        trackLoop epsilon S (some ⟨a.pos, ylast.yaw, ylast.velocity⟩) zs := by
      rw [trackLoop_append epsilon xs _ [x] none S none hpre, hmstep]
    simp only [cbPath]
    rw [hL, hR]
  · have hend : trackLoop epsilon [x] none (xs ++ (ys' ++ [ylast])) =
        (S, some ⟨a.pos, ylast.yaw, ylast.velocity⟩, false) := by
      rw [trackLoop_append epsilon xs (ys' ++ [ylast]) [x] none S none hpre, hrun]
    simp [cbPath, hend]
  · intro hchain hnovxs
    have hA : trackLoop epsilon [x] none xs = (x :: xs, none, false) := by
      simpa using trackLoop_far epsilon xs [x] x (by simp) hchain hnovxs
    simp [cbPath, hA]

/-- Witness for C6 (amended) at a concrete rational path: `ε = 1/2`, two
far-apart waypoints, an *interior* run of one waypoint within `ε` of the
second, then a far continuation waypoint. -/
theorem c6_witness :
    trackLoop ((1:ℚ)/2) [⟨(0,0),0,none⟩] none [⟨(1,0),0,none⟩]
      = ([⟨(0,0),0,none⟩, ⟨(1,0),0,none⟩], none, false) ∧
    ([(⟨(0,0),0,none⟩ : Pose2D ℚ), ⟨(1,0),0,none⟩].getLast? = some ⟨(1,0),0,none⟩) ∧
    (∀ q ∈ [(⟨(1,1/10),3,some 2⟩ : Pose2D ℚ)],
      sqnormV (vsub ((1:ℚ),(0:ℚ)) q.pos) < 1/2 * (1/2)) ∧
    (cbPath ((1:ℚ)/2)
        (⟨(0,0),0,none⟩ :: ([⟨(1,0),0,none⟩] ++
          (([] ++ [⟨(1,1/10),3,some 2⟩]) ++ [⟨(5,0),4,none⟩]))) =
      cbPath ((1:ℚ)/2)
        (⟨(0,0),0,none⟩ :: ([⟨(1,0),0,none⟩] ++
          ((⟨((1:ℚ),(0:ℚ)),3,some 2⟩ : Pose2D ℚ) :: [⟨(5,0),4,none⟩]))) ∧
     (cbPath ((1:ℚ)/2)
        (⟨(0,0),0,none⟩ :: ([⟨(1,0),0,none⟩] ++ ([] ++ [⟨(1,1/10),3,some 2⟩])))).path =
      [⟨(0,0),0,none⟩, ⟨(1,0),0,none⟩] ++ [⟨((1:ℚ),(0:ℚ)),3,some 2⟩] ∧
     (List.Chain' (fun u w => (1:ℚ)/2 * (1/2) ≤ sqnormV (vsub u.pos w.pos))
        [(⟨(0,0),0,none⟩ : Pose2D ℚ), ⟨(1,0),0,none⟩] →
      (∀ q ∈ [(⟨(1,0),0,none⟩ : Pose2D ℚ)], ¬ negVel q) →
      (cbPath ((1:ℚ)/2) [⟨(0,0),0,none⟩, ⟨(1,0),0,none⟩]).path =
        [⟨(0,0),0,none⟩, ⟨(1,0),0,none⟩])) := by
  have hpre : trackLoop ((1:ℚ)/2) [⟨(0,0),0,none⟩] none [⟨(1,0),0,none⟩]
      = ([⟨(0,0),0,none⟩, ⟨(1,0),0,none⟩], none, false) := by
    norm_num [trackLoop, stepPose, sqnormV, vsub, dPose]
  have hlast : ([(⟨(0,0),0,none⟩ : Pose2D ℚ), ⟨(1,0),0,none⟩].getLast?
      = some ⟨(1,0),0,none⟩) := by simp
  have hnear : ∀ q ∈ [(⟨(1,1/10),3,some 2⟩ : Pose2D ℚ)],
      sqnormV (vsub ((1:ℚ),(0:ℚ)) q.pos) < 1/2 * (1/2) := by
    intro q hq
    simp only [List.mem_singleton] at hq
    subst hq
    norm_num [sqnormV, vsub]
  have hnov : ∀ q ∈ [(⟨(1,1/10),3,some 2⟩ : Pose2D ℚ)], ¬ negVel q := by
    intro q hq
    simp only [List.mem_singleton] at hq
    subst hq
    norm_num
  exact ⟨hpre, hlast, hnear,
    c6_amended ((1:ℚ)/2) ⟨(0,0),0,none⟩ [⟨(1,0),0,none⟩]
      [⟨(0,0),0,none⟩, ⟨(1,0),0,none⟩] [] [⟨(5,0),4,none⟩]
      ⟨(1,0),0,none⟩ ⟨(1,1/10),3,some 2⟩ hpre hlast hnear hnov⟩

/-- C6 counterexample: a two-waypoint path whose consecutive positions
are 5 apart (`≥ ε = 1`), with velocity −1 on the second waypoint, is
cleared entirely — the stored path does not preserve the waypoints, so
the claim's preservation part fails without a no-negative-velocity
proviso (trajectory_tracker.cpp:260-265 clears the whole path). -/
theorem c6_counterexample :
    (1:ℝ) * 1 ≤ sqnormV (vsub ((0:ℝ), (0:ℝ)) ((5:ℝ), (0:ℝ))) ∧
    (cbPath (1:ℝ) [⟨(0,0),0,none⟩, ⟨(5,0),0,some (-1)⟩]).path = [] := by
  constructor
  · norm_num [sqnormV, vsub]
  · norm_num [cbPath, trackLoop]

end NeoNav
